import Mathlib

/-!
# Verification of `server/src/realtime_visualizer.py`

A shallow embedding of the `RealtimeVisualizer` class: its per-tick redraw
function `animate`, and the lifecycle operations `start_visualization` and
`stop_visualization`.  Numeric sample values are modelled as rationals;
Python exceptions are modelled with an explicit error type; the mutable
matplotlib objects (six `Line2D` series, two axes) are modelled as an
explicit state record that each operation transforms.

Python lists are modelled as `PyList`: a value list together with a
provenance tag (`origin`).  Lists handed over by the external data accessor
carry `some id`; any list freshly allocated during a tick (a slice
`l[start:]`, or `list(range(n))`) carries `none`.  This lets aliasing of
the accessor's sequences be observed in the final state.
-/

/-- A Python exception, as far as this component can raise or observe one. -/
inductive PyError where
  | keyError (key : String)
  | valueError (msg : String)
  | attributeError (msg : String)
  | other (msg : String)
  deriving DecidableEq, Repr

/-- The message text interpolated by `print(f"Error in animation update: {e}")`. -/
def PyError.message : PyError → String
  | .keyError k => "'" ++ k ++ "'"
  | .valueError m => m
  | .attributeError m => m
  | .other m => m

/-- A Python list of numbers: its values, plus a provenance tag.
`origin = some i` means the list is (a reference to) the accessor-owned list
with identity `i`; `origin = none` means it was freshly allocated inside the
visualizer (by slicing or by `list(range(..))`). -/
structure PyList where
  origin : Option ℕ
  vals : List ℚ
  deriving DecidableEq, Repr

/-- Python slice `l[start:]`: a fresh list holding the values from index
`start` on. -/
def PyList.slice (l : PyList) (start : ℕ) : PyList :=
  ⟨none, l.vals.drop start⟩

/-- Python `len`. -/
def PyList.len (l : PyList) : ℕ := l.vals.length

/-- The mapping returned by the data accessor.  Each key of
`frame, Ax, Ay, Az, Gx, Gy, Gz` is present (`some`) or absent (`none`);
`data[k]` on an absent key raises `KeyError`. -/
structure DataDict where
  frame : Option PyList
  Ax : Option PyList
  Ay : Option PyList
  Az : Option PyList
  Gx : Option PyList
  Gy : Option PyList
  Gz : Option PyList
  deriving DecidableEq, Repr

/-- Python `data[k]`: the value when the key is present, `KeyError` otherwise. -/
def DataDict.key (o : Option PyList) (k : String) : Except PyError PyList :=
  match o with
  | some l => .ok l
  | none => .error (.keyError k)

/-- One matplotlib `Line2D`: the coordinate data last installed by
`set_data(x, y)`.  The x-coordinates are the freshly built index list; the
y-coordinates are the (possibly accessor-owned) value list that was passed. -/
structure Line where
  xdata : List ℕ
  ydata : PyList
  deriving DecidableEq, Repr

/-- The mutable rendering state owned by the visualizer: the six series and
the vertical/horizontal extents of the two plot areas. -/
structure VizState where
  line_ax : Line
  line_ay : Line
  line_az : Line
  line_gx : Line
  line_gy : Line
  line_gz : Line
  ax1_ylim : ℚ × ℚ
  ax2_ylim : ℚ × ℚ
  ax1_xlim : ℕ × ℕ
  ax2_xlim : ℕ × ℕ
  deriving DecidableEq, Repr

/-- A line as `ax.plot([], [])` creates it. -/
def emptyLine : Line := ⟨[], ⟨none, []⟩⟩

/-- The state right after `setup_plot`: six empty series and matplotlib's
default unit extents on both axes. -/
def initState : VizState :=
  { line_ax := emptyLine, line_ay := emptyLine, line_az := emptyLine
    line_gx := emptyLine, line_gy := emptyLine, line_gz := emptyLine
    ax1_ylim := (0, 1), ax2_ylim := (0, 1)
    ax1_xlim := (0, 1), ax2_xlim := (0, 1) }

/-- Python `min` over a list: `ValueError` on an empty list, otherwise the
least element. -/
def pymin : List ℚ → Except PyError ℚ
  | [] => .error (.valueError "min() arg is an empty sequence")
  | x :: xs => .ok (xs.foldl min x)

/-- Python `max` over a list: `ValueError` on an empty list, otherwise the
greatest element. -/
def pymax : List ℚ → Except PyError ℚ
  | [] => .error (.valueError "max() arg is an empty sequence")
  | x :: xs => .ok (xs.foldl max x)

/-- Lines 75-93 of `animate`: choose the shared x index list and the six
channel value lists.  When `data_length > window_size` every channel is
sliced from `start_idx = data_length - window_size`; otherwise the
accessor's lists are used as they are.  A missing channel key raises
`KeyError`, the first one in the source's evaluation order
`Ax, Ay, Az, Gx, Gy, Gz` (nothing is yet stored when it is raised, so
fetching all six keys before branching is observationally the same as the
source's per-branch fetches). -/
def windowChannels (window_size data_length : ℕ) (data : DataDict) :
    Except PyError (List ℕ × PyList × PyList × PyList × PyList × PyList × PyList) :=
  match data.Ax, data.Ay, data.Az, data.Gx, data.Gy, data.Gz with
  | some axl, some ayl, some azl, some gxl, some gyl, some gzl =>
    if data_length > window_size then
      let start_idx := data_length - window_size
      .ok (List.range window_size, axl.slice start_idx, ayl.slice start_idx,
           azl.slice start_idx, gxl.slice start_idx, gyl.slice start_idx,
           gzl.slice start_idx)
    else
      .ok (List.range data_length, axl, ayl, azl, gxl, gyl, gzl)
  | none, _, _, _, _, _ => .error (.keyError "Ax")
  | _, none, _, _, _, _ => .error (.keyError "Ay")
  | _, _, none, _, _, _ => .error (.keyError "Az")
  | _, _, _, none, _, _ => .error (.keyError "Gx")
  | _, _, _, _, none, _ => .error (.keyError "Gy")
  | _, _, _, _, _, none => .error (.keyError "Gz")

/-- Lines 103-115 of `animate`: the y auto-scale step.  It reads and
reassigns only the two vertical extents, so it is modelled as a function of
the prior extents and the six just-installed value lists.  Guarded by
`len(acc_x) > 0`; each axis is rescaled only when its data range is
strictly positive.  On an empty gyroscope concatenation `min(gy_data)`,
evaluated first, raises `ValueError` after the accelerometer extent was
already reassigned, which the returned triple reflects. -/
def autoscale (ylim1 ylim2 : ℚ × ℚ) (acc_x acc_y acc_z gy_x gy_y gy_z : List ℚ) :
    (ℚ × ℚ) × (ℚ × ℚ) × Option PyError :=
  if acc_x.length > 0 then
    let acc_data := acc_x ++ acc_y ++ acc_z
    match pymin acc_data, pymax acc_data with
    | .ok acc_min, .ok acc_max =>
      let acc_range := acc_max - acc_min
      let y1 := if acc_range > 0 then
          (acc_min - (1/10 : ℚ) * acc_range, acc_max + (1/10 : ℚ) * acc_range)
        else ylim1
      let gy_data := gy_x ++ gy_y ++ gy_z
      match pymin gy_data, pymax gy_data with
      | .ok gy_min, .ok gy_max =>
        let gy_range := gy_max - gy_min
        let y2 := if gy_range > 0 then
            (gy_min - (1/10 : ℚ) * gy_range, gy_max + (1/10 : ℚ) * gy_range)
          else ylim2
        (y1, y2, none)
      | _, _ => (y1, ylim2, some (.valueError "min() arg is an empty sequence"))
    | _, _ => (ylim1, ylim2, some (.valueError "min() arg is an empty sequence"))
  else (ylim1, ylim2, none)

/-- The body of `animate`'s `try` block (lines 65-123), given the outcome of
calling the data callback (`.error` when the callback itself raised).
Returns the state as updated up to the point of any exception, together
with the exception that escaped the block, if any. -/
def animateTry (window_size : ℕ) (cbResult : Except PyError (Option DataDict))
    (s : VizState) : VizState × Option PyError :=
  match cbResult with
  | .error e => (s, some e)
  | .ok none => (s, none)
  | .ok (some data) =>
    match data.frame with
    | none => (s, some (.keyError "frame"))
    | some frame =>
      if frame.len = 0 then (s, none)
      else
        let data_length := frame.len
        match windowChannels window_size data_length data with
        | .error e => (s, some e)
        | .ok (x_data, acc_x, acc_y, acc_z, gy_x, gy_y, gy_z) =>
          let s1 := { s with
            line_ax := ⟨x_data, acc_x⟩, line_ay := ⟨x_data, acc_y⟩
            line_az := ⟨x_data, acc_z⟩, line_gx := ⟨x_data, gy_x⟩
            line_gy := ⟨x_data, gy_y⟩, line_gz := ⟨x_data, gy_z⟩ }
          match autoscale s1.ax1_ylim s1.ax2_ylim acc_x.vals acc_y.vals acc_z.vals
              gy_x.vals gy_y.vals gy_z.vals with
          | (y1, y2, some e) => ({ s1 with ax1_ylim := y1, ax2_ylim := y2 }, some e)
          | (y1, y2, none) =>
            let s2 := { s1 with ax1_ylim := y1, ax2_ylim := y2 }
            let s3 := if data_length > window_size then
                { s2 with ax1_xlim := (0, window_size), ax2_xlim := (0, window_size) }
              else
                { s2 with ax1_xlim := (0, max 50 data_length),
                          ax2_xlim := (0, max 50 data_length) }
            (s3, none)

/-- The full `animate` tick.  `callback = none` models an unbound
`data_callback` (the guard before the `try`); otherwise `callback` carries
the outcome of invoking the accessor.  Any exception from the `try` body is
caught and turned into the printed line; the function itself never raises,
so its result is always `.ok` of the new state and the console output. -/
def animate (window_size : ℕ) (callback : Option (Except PyError (Option DataDict)))
    (s : VizState) : Except PyError (VizState × List String) :=
  match callback with
  | none => .ok (s, [])
  | some cbResult =>
    match animateTry window_size cbResult s with
    | (s', some e) => .ok (s', ["Error in animation update: " ++ e.message])
    | (s', none) => .ok (s', [])

/-- The scheduling timer of the animation framework: it fires the next tick
unless either it has been stopped or the previous tick's callback raised
an uncaught exception. -/
def timerStep (window_size : ℕ) (running : Bool)
    (callback : Option (Except PyError (Option DataDict))) (s : VizState) :
    Bool × VizState :=
  if running then
    match animate window_size callback s with
    | .ok (s', _) => (true, s')
    | .error _ => (false, s)
  else (false, s)

/-- The `event_source` timer behind a `FuncAnimation`. -/
structure EventSource where
  running : Bool
  deriving DecidableEq, Repr

/-- A `FuncAnimation` handle, as far as this component touches it. -/
structure Animation where
  event_source : EventSource
  deriving DecidableEq, Repr

/-- The lifecycle state of a `RealtimeVisualizer`: whether a data callback
is bound, the animation handle (`None` until `start_visualization` creates
it), and whether the figure window is open. -/
structure Viz where
  data_callback : Bool
  animation : Option Animation
  figOpen : Bool
  deriving DecidableEq, Repr

/-- The visualizer as `__init__`/`setup_plot` leave it: no callback bound,
`self.animation = None`, figure created. -/
def Viz.init : Viz := ⟨false, none, true⟩

/-- Python attribute/method access through a possibly-`None` reference:
touching `None` raises. -/
def pyAttr (o : Option α) (what : String) : Except PyError α :=
  match o with
  | some a => .ok a
  | none => .error (.attributeError ("'NoneType' object has no attribute '" ++ what ++ "'"))

/-- Python `animation.event_source.stop()`. -/
def Animation.stopES (a : Animation) : Animation :=
  { a with event_source := { a.event_source with running := false } }

/-- Model of `stop_visualization` (lines 154-158): if `self.animation` is truthy,
stop its event source; then `plt.close('all')`.  The guard is what keeps
the `None` case from raising. -/
def stop_visualization (v : Viz) : Except PyError Viz := do
  let v1 ←
    if v.animation.isSome then do
      let anim ← pyAttr v.animation "event_source"
      pure { v with animation := some anim.stopES }
    else
      pure v
  pure { v1 with figOpen := false }

/-- How the blocking `plt.show()` call exits: the user closes the window
(normal return) or an interrupt/exception propagates out of it. -/
inductive ShowExit where
  | closed
  | interrupted (e : PyError)
  deriving DecidableEq, Repr

/-- Model of `start_visualization` (lines 131-152): bind the callback, create the
`FuncAnimation` (its timer running), block in `plt.show()`, and in the
`finally` clause stop the event source however `show` exited.  The result
pairs the visualizer state at exit with the call's outcome (`.error` when
the interrupt propagates to the caller). -/
def start_visualization (v : Viz) (exit : ShowExit) : Viz × Except PyError Unit :=
  let v1 := { v with data_callback := true,
                     animation := some ⟨⟨true⟩⟩ }
  let fin : Viz → Viz := fun w =>
    if w.animation.isSome then
      match w.animation with
      | some a => { w with animation := some a.stopES }
      | none => w
    else w
  match exit with
  | .closed => (fin v1, .ok ())
  | .interrupted e => (fin v1, .error e)

/-- The state after one tick: the redraw tick never propagates an
exception, so this projection is total (an `.error` result, which never
occurs, would leave the state unchanged). -/
def tickState (window_size : ℕ) (callback : Option (Except PyError (Option DataDict)))
    (s : VizState) : VizState :=
  match animate window_size callback s with
  | .ok (s', _) => s'
  | .error _ => s

/-- The identities of accessor-owned lists currently installed as series
y-data. -/
def lineOriginIds (s : VizState) : List ℕ :=
  [s.line_ax, s.line_ay, s.line_az, s.line_gx, s.line_gy, s.line_gz].filterMap
    (fun l => l.ydata.origin)

/-- The identities of the lists held by a sample window. -/
def windowOriginIds (d : DataDict) : List ℕ :=
  [d.frame, d.Ax, d.Ay, d.Az, d.Gx, d.Gy, d.Gz].filterMap
    (fun o => o.bind PyList.origin)

/-- Whether the rendering state retains a reference into one of the sample
window's sequences (a stored series is identical, as an object, to one of
the accessor's lists). -/
def sharesOrigin (s : VizState) (d : DataDict) : Bool :=
  (lineOriginIds s).any (fun i => (windowOriginIds d).contains i)

/-- A one-sample window whose seven lists carry distinct identities
10 … 16, as the external data accessor would hand them over. -/
def cexFrame : PyList := ⟨some 10, [0]⟩

/-- Accelerometer x channel of the one-sample window. -/
def cexAx : PyList := ⟨some 11, [1]⟩

/-- Accelerometer y channel of the one-sample window. -/
def cexAy : PyList := ⟨some 12, [2]⟩

/-- Accelerometer z channel of the one-sample window. -/
def cexAz : PyList := ⟨some 13, [3]⟩

/-- Gyroscope x channel of the one-sample window. -/
def cexGx : PyList := ⟨some 14, [4]⟩

/-- Gyroscope y channel of the one-sample window. -/
def cexGy : PyList := ⟨some 15, [5]⟩

/-- Gyroscope z channel of the one-sample window. -/
def cexGz : PyList := ⟨some 16, [6]⟩

/-- The one-sample window assembled from the tagged lists above. -/
def cexWindow : DataDict :=
  ⟨some cexFrame, some cexAx, some cexAy, some cexAz, some cexGx, some cexGy, some cexGz⟩

/-- Frame sequence of a three-sample window used for concrete instances. -/
def sf3 : PyList := ⟨some 0, [0, 0, 0]⟩

/-- Accelerometer x channel of the three-sample window. -/
def sax3 : PyList := ⟨some 1, [1, 2, 3]⟩

/-- Accelerometer y channel of the three-sample window. -/
def say3 : PyList := ⟨some 2, [2, 3, 4]⟩

/-- Accelerometer z channel of the three-sample window. -/
def saz3 : PyList := ⟨some 3, [3, 4, 5]⟩

/-- Gyroscope x channel of the three-sample window. -/
def sgx3 : PyList := ⟨some 4, [4, 5, 6]⟩

/-- Gyroscope y channel of the three-sample window. -/
def sgy3 : PyList := ⟨some 5, [5, 6, 7]⟩

/-- Gyroscope z channel of the three-sample window. -/
def sgz3 : PyList := ⟨some 6, [6, 7, 8]⟩

/-- The three-sample window assembled from the lists above. -/
def sampleWindow3 : DataDict :=
  ⟨some sf3, some sax3, some say3, some saz3, some sgx3, some sgy3, some sgz3⟩

/-- A constant channel list of length `n` with identity `i` and value `q`. -/
def constList (i n : ℕ) (q : ℚ) : PyList := ⟨some i, List.replicate n q⟩

/-- A sample window with `n` samples in every channel. -/
def windowN (n : ℕ) : DataDict :=
  ⟨some (constList 0 n 0), some (constList 1 n 1), some (constList 2 n 2),
   some (constList 3 n 3), some (constList 4 n 4), some (constList 5 n 5),
   some (constList 6 n 6)⟩

lemma exists_cons_of_drop (l : List ℚ) (k W : ℕ) (hW : 0 < W)
    (h : (l.drop k).length = W) : ∃ a t, l.drop k = a :: t := by
  cases hd : l.drop k with
  | nil => rw [hd] at h; simp at h; omega
  | cons a t => exact ⟨a, t, rfl⟩

lemma exists_cons_of_len_pos (l : List ℚ) (h : 0 < l.length) :
    ∃ a t, l = a :: t := by
  cases l with
  | nil => simp at h
  | cons a t => exact ⟨a, t, rfl⟩

/-- Characterization of a successful tick when `data_length > window_size`:
the six series receive the trailing slices with index axis `0 … W-1`, the
vertical extents follow the auto-scale rule, and the horizontal extents
become `[0, W]`. -/
lemma animate_big (W : ℕ) (s : VizState) (f axl ayl azl gxl gyl gzl : PyList)
    (hW : 0 < W) (hgt : W < f.len)
    (ha : axl.len = f.len) (hb : ayl.len = f.len) (hc : azl.len = f.len)
    (hd : gxl.len = f.len) (he : gyl.len = f.len) (hg : gzl.len = f.len) :
    ∃ mn mx gmn gmx : ℚ,
      pymin (axl.vals.drop (f.len - W) ++ ayl.vals.drop (f.len - W) ++
        azl.vals.drop (f.len - W)) = .ok mn ∧
      pymax (axl.vals.drop (f.len - W) ++ ayl.vals.drop (f.len - W) ++
        azl.vals.drop (f.len - W)) = .ok mx ∧
      pymin (gxl.vals.drop (f.len - W) ++ gyl.vals.drop (f.len - W) ++
        gzl.vals.drop (f.len - W)) = .ok gmn ∧
      pymax (gxl.vals.drop (f.len - W) ++ gyl.vals.drop (f.len - W) ++
        gzl.vals.drop (f.len - W)) = .ok gmx ∧
      animate W (some (.ok (some ⟨some f, some axl, some ayl, some azl,
          some gxl, some gyl, some gzl⟩))) s =
        .ok ({ line_ax := ⟨List.range W, axl.slice (f.len - W)⟩,
               line_ay := ⟨List.range W, ayl.slice (f.len - W)⟩,
               line_az := ⟨List.range W, azl.slice (f.len - W)⟩,
               line_gx := ⟨List.range W, gxl.slice (f.len - W)⟩,
               line_gy := ⟨List.range W, gyl.slice (f.len - W)⟩,
               line_gz := ⟨List.range W, gzl.slice (f.len - W)⟩,
               ax1_ylim := if mx - mn > 0 then
                   (mn - (1/10 : ℚ) * (mx - mn), mx + (1/10 : ℚ) * (mx - mn))
                 else s.ax1_ylim,
               ax2_ylim := if gmx - gmn > 0 then
                   (gmn - (1/10 : ℚ) * (gmx - gmn), gmx + (1/10 : ℚ) * (gmx - gmn))
                 else s.ax2_ylim,
               ax1_xlim := (0, W), ax2_xlim := (0, W) }, []) := by
  simp only [PyList.len] at ha hb hc hd he hg hgt ⊢
  have hlena : (axl.vals.drop (f.vals.length - W)).length = W := by
    rw [List.length_drop]; omega
  have hleng : (gxl.vals.drop (f.vals.length - W)).length = W := by
    rw [List.length_drop]; omega
  obtain ⟨a, ta, hA⟩ := exists_cons_of_drop axl.vals (f.vals.length - W) W hW hlena
  obtain ⟨g, tg, hG⟩ := exists_cons_of_drop gxl.vals (f.vals.length - W) W hW hleng
  have hne : ¬ (f.vals.length = 0) := by omega
  refine ⟨(ta ++ List.drop (f.vals.length - W) ayl.vals ++
      List.drop (f.vals.length - W) azl.vals).foldl min a,
    (ta ++ List.drop (f.vals.length - W) ayl.vals ++
      List.drop (f.vals.length - W) azl.vals).foldl max a,
    (tg ++ List.drop (f.vals.length - W) gyl.vals ++
      List.drop (f.vals.length - W) gzl.vals).foldl min g,
    (tg ++ List.drop (f.vals.length - W) gyl.vals ++
      List.drop (f.vals.length - W) gzl.vals).foldl max g, ?_, ?_, ?_, ?_, ?_⟩
  · rw [hA]; rfl
  · rw [hA]; rfl
  · rw [hG]; rfl
  · rw [hG]; rfl
  simp only [animate, animateTry, windowChannels, PyList.len, if_neg hne, if_pos hgt]
  simp only [autoscale, PyList.slice]
  rw [hA, hG]
  simp [pymin, pymax]

/-- Characterization of a successful tick when `0 < data_length ≤ window_size`:
the six series receive the accessor's lists unchanged with index axis
`0 … L-1`, the vertical extents follow the auto-scale rule, and the
horizontal extents become `[0, max 50 L]`. -/
lemma animate_small (W : ℕ) (s : VizState) (f axl ayl azl gxl gyl gzl : PyList)
    (hpos : 0 < f.len) (hle : f.len ≤ W)
    (ha : axl.len = f.len) (hb : ayl.len = f.len) (hc : azl.len = f.len)
    (hd : gxl.len = f.len) (he : gyl.len = f.len) (hg : gzl.len = f.len) :
    ∃ mn mx gmn gmx : ℚ,
      pymin (axl.vals ++ ayl.vals ++ azl.vals) = .ok mn ∧
      pymax (axl.vals ++ ayl.vals ++ azl.vals) = .ok mx ∧
      pymin (gxl.vals ++ gyl.vals ++ gzl.vals) = .ok gmn ∧
      pymax (gxl.vals ++ gyl.vals ++ gzl.vals) = .ok gmx ∧
      animate W (some (.ok (some ⟨some f, some axl, some ayl, some azl,
          some gxl, some gyl, some gzl⟩))) s =
        .ok ({ line_ax := ⟨List.range f.len, axl⟩,
               line_ay := ⟨List.range f.len, ayl⟩,
               line_az := ⟨List.range f.len, azl⟩,
               line_gx := ⟨List.range f.len, gxl⟩,
               line_gy := ⟨List.range f.len, gyl⟩,
               line_gz := ⟨List.range f.len, gzl⟩,
               ax1_ylim := if mx - mn > 0 then
                   (mn - (1/10 : ℚ) * (mx - mn), mx + (1/10 : ℚ) * (mx - mn))
                 else s.ax1_ylim,
               ax2_ylim := if gmx - gmn > 0 then
                   (gmn - (1/10 : ℚ) * (gmx - gmn), gmx + (1/10 : ℚ) * (gmx - gmn))
                 else s.ax2_ylim,
               ax1_xlim := (0, max 50 f.len),
               ax2_xlim := (0, max 50 f.len) }, []) := by
  simp only [PyList.len] at ha hb hc hd he hg hpos hle ⊢
  obtain ⟨a, ta, hA⟩ := exists_cons_of_len_pos axl.vals (by omega)
  obtain ⟨g, tg, hG⟩ := exists_cons_of_len_pos gxl.vals (by omega)
  have hne : ¬ (f.vals.length = 0) := by omega
  have hngt : ¬ (f.vals.length > W) := by omega
  refine ⟨(ta ++ ayl.vals ++ azl.vals).foldl min a,
    (ta ++ ayl.vals ++ azl.vals).foldl max a,
    (tg ++ gyl.vals ++ gzl.vals).foldl min g,
    (tg ++ gyl.vals ++ gzl.vals).foldl max g, ?_, ?_, ?_, ?_, ?_⟩
  · rw [hA]; rfl
  · rw [hA]; rfl
  · rw [hG]; rfl
  · rw [hG]; rfl
  simp only [animate, animateTry, windowChannels, PyList.len, if_neg hne, if_neg hngt]
  simp only [autoscale]
  rw [hA, hG]
  simp [pymin, pymax]

/-- C1: for every sample window whose channel sequences all have length
L greater than the configured `window_size` W, the redraw tick displays
exactly the trailing W elements of each of the six channel sequences
(Ax, Ay, Az, Gx, Gy, Gz), paired with the shared x-coordinate sequence
`0, 1, …, W-1` (with W positive, per the constructor's contract). -/
theorem animate_trailing_window (W : ℕ) (s : VizState)
    (f axl ayl azl gxl gyl gzl : PyList)
    (hW : 0 < W) (hgt : W < f.len)
    (ha : axl.len = f.len) (hb : ayl.len = f.len) (hc : azl.len = f.len)
    (hd : gxl.len = f.len) (he : gyl.len = f.len) (hg : gzl.len = f.len) :
    ∃ s' log, animate W (some (.ok (some ⟨some f, some axl, some ayl, some azl,
        some gxl, some gyl, some gzl⟩))) s = .ok (s', log) ∧
      s'.line_ax.xdata = List.range W ∧
      s'.line_ay.xdata = List.range W ∧
      s'.line_az.xdata = List.range W ∧
      s'.line_gx.xdata = List.range W ∧
      s'.line_gy.xdata = List.range W ∧
      s'.line_gz.xdata = List.range W ∧
      s'.line_ax.ydata.vals = axl.vals.drop (f.len - W) ∧
      s'.line_ay.ydata.vals = ayl.vals.drop (f.len - W) ∧
      s'.line_az.ydata.vals = azl.vals.drop (f.len - W) ∧
      s'.line_gx.ydata.vals = gxl.vals.drop (f.len - W) ∧
      s'.line_gy.ydata.vals = gyl.vals.drop (f.len - W) ∧
      s'.line_gz.ydata.vals = gzl.vals.drop (f.len - W) ∧
      s'.line_ax.ydata.vals.length = W ∧
      s'.line_ay.ydata.vals.length = W ∧
      s'.line_az.ydata.vals.length = W ∧
      s'.line_gx.ydata.vals.length = W ∧
      s'.line_gy.ydata.vals.length = W ∧
      s'.line_gz.ydata.vals.length = W := by
  obtain ⟨mn, mx, gmn, gmx, hmn, hmx, hgmn, hgmx, heq⟩ :=
    animate_big W s f axl ayl azl gxl gyl gzl hW hgt ha hb hc hd he hg
  refine ⟨_, _, heq, ?_⟩
  dsimp only [PyList.slice]
  refine ⟨rfl, rfl, rfl, rfl, rfl, rfl, rfl, rfl, rfl, rfl, rfl, rfl,
    ?_, ?_, ?_, ?_, ?_, ?_⟩ <;>
    · rw [List.length_drop]; simp only [PyList.len] at *; omega

/-- Witness for C1 at W = 2 and the three-sample window: the trailing
two points of each channel are displayed against x-axis `[0, 1]`. -/
theorem animate_trailing_window_instance :
    ∃ s' log, animate 2 (some (.ok (some sampleWindow3))) initState = .ok (s', log) ∧
      s'.line_ax.xdata = List.range 2 ∧
      s'.line_ax.ydata.vals = [2, 3] ∧
      s'.line_gz.ydata.vals = [7, 8] ∧
      s'.line_gz.ydata.vals.length = 2 := by
  obtain ⟨s', log, heq, hx1, _, _, _, _, _, hax, _, _, _, _, hgz, _, _, _, _, _, hlz⟩ :=
    animate_trailing_window 2 initState sf3 sax3 say3 saz3 sgx3 sgy3 sgz3
      (by decide) (by decide) rfl rfl rfl rfl rfl rfl
  exact ⟨s', log, heq, hx1, hax.trans (by decide), hgz.trans (by decide), hlz⟩

/-- C2: for every sample window whose channel sequences all have length
L with 0 < L ≤ `window_size` W, the redraw tick displays all L elements of
each of the six channel sequences unchanged and unshifted, paired with the
shared x-coordinate sequence `0, 1, …, L-1`. -/
theorem animate_within_window (W : ℕ) (s : VizState)
    (f axl ayl azl gxl gyl gzl : PyList)
    (hpos : 0 < f.len) (hle : f.len ≤ W)
    (ha : axl.len = f.len) (hb : ayl.len = f.len) (hc : azl.len = f.len)
    (hd : gxl.len = f.len) (he : gyl.len = f.len) (hg : gzl.len = f.len) :
    ∃ s' log, animate W (some (.ok (some ⟨some f, some axl, some ayl, some azl,
        some gxl, some gyl, some gzl⟩))) s = .ok (s', log) ∧
      s'.line_ax.xdata = List.range f.len ∧
      s'.line_ay.xdata = List.range f.len ∧
      s'.line_az.xdata = List.range f.len ∧
      s'.line_gx.xdata = List.range f.len ∧
      s'.line_gy.xdata = List.range f.len ∧
      s'.line_gz.xdata = List.range f.len ∧
      s'.line_ax.ydata.vals = axl.vals ∧
      s'.line_ay.ydata.vals = ayl.vals ∧
      s'.line_az.ydata.vals = azl.vals ∧
      s'.line_gx.ydata.vals = gxl.vals ∧
      s'.line_gy.ydata.vals = gyl.vals ∧
      s'.line_gz.ydata.vals = gzl.vals := by
  obtain ⟨mn, mx, gmn, gmx, hmn, hmx, hgmn, hgmx, heq⟩ :=
    animate_small W s f axl ayl azl gxl gyl gzl hpos hle ha hb hc hd he hg
  exact ⟨_, _, heq, rfl, rfl, rfl, rfl, rfl, rfl, rfl, rfl, rfl, rfl, rfl, rfl⟩

/-- Witness for C2 at W = 1000 and the three-sample window: all three
points of each channel are displayed against x-axis `[0, 1, 2]`. -/
theorem animate_within_window_instance :
    ∃ s' log, animate 1000 (some (.ok (some sampleWindow3))) initState = .ok (s', log) ∧
      s'.line_ax.xdata = List.range 3 ∧
      s'.line_ax.ydata.vals = [1, 2, 3] ∧
      s'.line_gz.ydata.vals = [6, 7, 8] := by
  obtain ⟨s', log, heq, hx1, _, _, _, _, _, hax, _, _, _, _, hgz⟩ :=
    animate_within_window 1000 initState sf3 sax3 say3 saz3 sgx3 sgy3 sgz3
      (by decide) (by decide) rfl rfl rfl rfl rfl rfl
  exact ⟨s', log, heq, hx1.trans (by decide), hax.trans (by decide), hgz.trans (by decide)⟩

/-- C3: on a redraw tick where the displayed series are non-empty, for
each of the two plot areas independently: with min and max ranging over the
concatenation of that area's three just-updated series, if max > min the
applied vertical extent is `[min - 0.1*(max-min), max + 0.1*(max-min)]`,
and if max = min the vertical extent keeps its prior value. -/
theorem animate_autoscale_extent (W : ℕ) (s : VizState)
    (f axl ayl azl gxl gyl gzl : PyList)
    (hW : 0 < W) (hpos : 0 < f.len)
    (ha : axl.len = f.len) (hb : ayl.len = f.len) (hc : azl.len = f.len)
    (hd : gxl.len = f.len) (he : gyl.len = f.len) (hg : gzl.len = f.len) :
    ∃ s' log, animate W (some (.ok (some ⟨some f, some axl, some ayl, some azl,
        some gxl, some gyl, some gzl⟩))) s = .ok (s', log) ∧
      (∀ mn mx : ℚ,
        pymin (s'.line_ax.ydata.vals ++ s'.line_ay.ydata.vals ++
          s'.line_az.ydata.vals) = .ok mn →
        pymax (s'.line_ax.ydata.vals ++ s'.line_ay.ydata.vals ++
          s'.line_az.ydata.vals) = .ok mx →
        (mn < mx → s'.ax1_ylim =
          (mn - (1/10 : ℚ) * (mx - mn), mx + (1/10 : ℚ) * (mx - mn))) ∧
        (mn = mx → s'.ax1_ylim = s.ax1_ylim)) ∧
      (∀ gmn gmx : ℚ,
        pymin (s'.line_gx.ydata.vals ++ s'.line_gy.ydata.vals ++
          s'.line_gz.ydata.vals) = .ok gmn →
        pymax (s'.line_gx.ydata.vals ++ s'.line_gy.ydata.vals ++
          s'.line_gz.ydata.vals) = .ok gmx →
        (gmn < gmx → s'.ax2_ylim =
          (gmn - (1/10 : ℚ) * (gmx - gmn), gmx + (1/10 : ℚ) * (gmx - gmn))) ∧
        (gmn = gmx → s'.ax2_ylim = s.ax2_ylim)) := by
  rcases le_or_lt f.len W with hle | hgt
  · obtain ⟨mn, mx, gmn, gmx, hmn, hmx, hgmn, hgmx, heq⟩ :=
      animate_small W s f axl ayl azl gxl gyl gzl hpos hle ha hb hc hd he hg
    refine ⟨_, _, heq, ?_, ?_⟩
    · intro mn' mx' hmn' hmx'
      dsimp only at hmn' hmx' ⊢
      rw [hmn] at hmn'
      rw [hmx] at hmx'
      injection hmn' with h1
      injection hmx' with h2
      subst h1; subst h2
      constructor
      · intro hlt
        rw [if_pos (by linarith : mx - mn > 0)]
      · intro heq2
        rw [if_neg (by rw [heq2]; simp)]
    · intro gmn' gmx' hgmn' hgmx'
      dsimp only at hgmn' hgmx' ⊢
      rw [hgmn] at hgmn'
      rw [hgmx] at hgmx'
      injection hgmn' with h1
      injection hgmx' with h2
      subst h1; subst h2
      constructor
      · intro hlt
        rw [if_pos (by linarith : gmx - gmn > 0)]
      · intro heq2
        rw [if_neg (by rw [heq2]; simp)]
  · obtain ⟨mn, mx, gmn, gmx, hmn, hmx, hgmn, hgmx, heq⟩ :=
      animate_big W s f axl ayl azl gxl gyl gzl hW hgt ha hb hc hd he hg
    refine ⟨_, _, heq, ?_, ?_⟩
    · intro mn' mx' hmn' hmx'
      dsimp only [PyList.slice] at hmn' hmx' ⊢
      rw [hmn] at hmn'
      rw [hmx] at hmx'
      injection hmn' with h1
      injection hmx' with h2
      subst h1; subst h2
      constructor
      · intro hlt
        rw [if_pos (by linarith : mx - mn > 0)]
      · intro heq2
        rw [if_neg (by rw [heq2]; simp)]
    · intro gmn' gmx' hgmn' hgmx'
      dsimp only [PyList.slice] at hgmn' hgmx' ⊢
      rw [hgmn] at hgmn'
      rw [hgmx] at hgmx'
      injection hgmn' with h1
      injection hgmx' with h2
      subst h1; subst h2
      constructor
      · intro hlt
        rw [if_pos (by linarith : gmx - gmn > 0)]
      · intro heq2
        rw [if_neg (by rw [heq2]; simp)]

/-- Witness for C3 at W = 5 and the three-sample window. -/
theorem animate_autoscale_extent_instance :
    ∃ s' log, animate 5 (some (.ok (some sampleWindow3))) initState = .ok (s', log) ∧
      (∀ mn mx : ℚ,
        pymin (s'.line_ax.ydata.vals ++ s'.line_ay.ydata.vals ++
          s'.line_az.ydata.vals) = .ok mn →
        pymax (s'.line_ax.ydata.vals ++ s'.line_ay.ydata.vals ++
          s'.line_az.ydata.vals) = .ok mx →
        (mn < mx → s'.ax1_ylim =
          (mn - (1/10 : ℚ) * (mx - mn), mx + (1/10 : ℚ) * (mx - mn))) ∧
        (mn = mx → s'.ax1_ylim = initState.ax1_ylim)) ∧
      (∀ gmn gmx : ℚ,
        pymin (s'.line_gx.ydata.vals ++ s'.line_gy.ydata.vals ++
          s'.line_gz.ydata.vals) = .ok gmn →
        pymax (s'.line_gx.ydata.vals ++ s'.line_gy.ydata.vals ++
          s'.line_gz.ydata.vals) = .ok gmx →
        (gmn < gmx → s'.ax2_ylim =
          (gmn - (1/10 : ℚ) * (gmx - gmn), gmx + (1/10 : ℚ) * (gmx - gmn))) ∧
        (gmn = gmx → s'.ax2_ylim = initState.ax2_ylim)) :=
  animate_autoscale_extent 5 initState sf3 sax3 say3 saz3 sgx3 sgy3 sgz3
    (by decide) (by decide) rfl rfl rfl rfl rfl rfl

/-- C4: on every redraw tick where no data accessor is bound, or the
accessor returns a falsy/empty result, or the `frame` sequence has length
0, the whole rendering state — all six series and both axes' extents — is
left exactly as it was before the tick, and nothing is printed. -/
theorem animate_nodata_noop (W : ℕ) (s : VizState)
    (callback : Option (Except PyError (Option DataDict)))
    (hcase : callback = none ∨ callback = some (.ok none) ∨
      (∃ d fr, callback = some (.ok (some d)) ∧ d.frame = some fr ∧ fr.len = 0)) :
    animate W callback s = .ok (s, []) := by
  rcases hcase with h | h | ⟨d, fr, h, hf, hl⟩
  · rw [h]; rfl
  · rw [h]; rfl
  · rw [h]; simp [animate, animateTry, hf, hl]

/-- Witness for C4: a falsy accessor result leaves the initial state
untouched. -/
theorem animate_nodata_noop_instance :
    animate 1000 (some (.ok none)) initState = .ok (initState, []) :=
  animate_nodata_noop 1000 initState (some (.ok none)) (Or.inr (Or.inl rfl))

/-- C5: on every redraw tick with data length L > 0 (and positive
`window_size` W), the horizontal extent applied to both plot areas is
`[0, W]` when L > W, and `[0, max 50 L]` otherwise. -/
theorem animate_xlim_extent (W : ℕ) (s : VizState)
    (f axl ayl azl gxl gyl gzl : PyList)
    (hW : 0 < W) (hpos : 0 < f.len)
    (ha : axl.len = f.len) (hb : ayl.len = f.len) (hc : azl.len = f.len)
    (hd : gxl.len = f.len) (he : gyl.len = f.len) (hg : gzl.len = f.len) :
    ∃ s' log, animate W (some (.ok (some ⟨some f, some axl, some ayl, some azl,
        some gxl, some gyl, some gzl⟩))) s = .ok (s', log) ∧
      (W < f.len → s'.ax1_xlim = (0, W) ∧ s'.ax2_xlim = (0, W)) ∧
      (f.len ≤ W → s'.ax1_xlim = (0, max 50 f.len) ∧
        s'.ax2_xlim = (0, max 50 f.len)) := by
  rcases le_or_lt f.len W with hle | hgt
  · obtain ⟨mn, mx, gmn, gmx, hmn, hmx, hgmn, hgmx, heq⟩ :=
      animate_small W s f axl ayl azl gxl gyl gzl hpos hle ha hb hc hd he hg
    exact ⟨_, _, heq, fun hlt => absurd hlt (by omega), fun _ => ⟨rfl, rfl⟩⟩
  · obtain ⟨mn, mx, gmn, gmx, hmn, hmx, hgmn, hgmx, heq⟩ :=
      animate_big W s f axl ayl azl gxl gyl gzl hW hgt ha hb hc hd he hg
    exact ⟨_, _, heq, fun _ => ⟨rfl, rfl⟩, fun hle => absurd hle (by omega)⟩

/-- Witness for C5 at W = 1000: L = 10 yields extent `[0, 50]` and
L = 80 yields `[0, 80]`, on both plot areas. -/
theorem animate_xlim_extent_instance :
    (∃ s' log, animate 1000 (some (.ok (some (windowN 10)))) initState = .ok (s', log) ∧
      s'.ax1_xlim = (0, 50) ∧ s'.ax2_xlim = (0, 50)) ∧
    (∃ s' log, animate 1000 (some (.ok (some (windowN 80)))) initState = .ok (s', log) ∧
      s'.ax1_xlim = (0, 80) ∧ s'.ax2_xlim = (0, 80)) := by
  constructor
  · obtain ⟨s', log, heq, _, hsm⟩ :=
      animate_xlim_extent 1000 initState (constList 0 10 0) (constList 1 10 1)
        (constList 2 10 2) (constList 3 10 3) (constList 4 10 4) (constList 5 10 5)
        (constList 6 10 6) (by decide) (by decide) rfl rfl rfl rfl rfl rfl
    obtain ⟨h1, h2⟩ := hsm (by decide)
    exact ⟨s', log, heq, h1.trans (by decide), h2.trans (by decide)⟩
  · obtain ⟨s', log, heq, _, hsm⟩ :=
      animate_xlim_extent 1000 initState (constList 0 80 0) (constList 1 80 1)
        (constList 2 80 2) (constList 3 80 3) (constList 4 80 4) (constList 5 80 5)
        (constList 6 80 6) (by decide) (by decide) rfl rfl rfl rfl rfl rfl
    obtain ⟨h1, h2⟩ := hsm (by decide)
    exact ⟨s', log, heq, h1.trans (by decide), h2.trans (by decide)⟩

/-- C6: any exception raised inside a redraw tick's `try` block — data
access, windowing, series update, or axis scaling — is caught and turned
into a printed message, never propagated: `animate` always returns
normally with the state the `try` body had reached, and the timer therefore
keeps running so the next tick still fires. -/
theorem animate_exception_contained (W : ℕ)
    (cbResult : Except PyError (Option DataDict)) (s : VizState) :
    ∃ s' log, animate W (some cbResult) s = .ok (s', log) ∧
      s' = (animateTry W cbResult s).1 ∧
      timerStep W true (some cbResult) s = (true, s') ∧
      ((animateTry W cbResult s).2 = none → log = []) ∧
      (∀ e, (animateTry W cbResult s).2 = some e →
        log = ["Error in animation update: " ++ e.message]) := by
  rcases h : animateTry W cbResult s with ⟨s', oe⟩
  cases oe with
  | none =>
    exact ⟨s', [], by simp [animate, h], rfl, by simp [timerStep, animate, h],
      fun _ => rfl, fun e he => by simp at he⟩
  | some e =>
    refine ⟨s', ["Error in animation update: " ++ e.message],
      by simp [animate, h], rfl, by simp [timerStep, animate, h],
      fun hn => by simp at hn, fun e' he' => ?_⟩
    have h2 : e = e' := by simpa using he'
    rw [h2]

/-- Witness for C6: an accessor that raises leaves the state unchanged,
prints the message, and the timer stays running. -/
theorem animate_exception_contained_instance :
    ∃ s' log, animate 1000 (some (.error (.other "boom"))) initState = .ok (s', log) ∧
      s' = (animateTry 1000 (.error (.other "boom")) initState).1 ∧
      timerStep 1000 true (some (.error (.other "boom"))) initState = (true, s') ∧
      ((animateTry 1000 (.error (.other "boom")) initState).2 = none → log = []) ∧
      (∀ e, (animateTry 1000 (.error (.other "boom")) initState).2 = some e →
        log = ["Error in animation update: " ++ e.message]) :=
  animate_exception_contained 1000 (.error (.other "boom")) initState

/-- C7: `stop_visualization` is idempotent and safe in every state: it
never raises (also before `start` and when called twice in a row), it stops
the repeating redraw when one is running, and it closes the chart
surface. -/
theorem stop_visualization_idempotent_safe (v : Viz) :
    ∃ v', stop_visualization v = .ok v' ∧
      v'.figOpen = false ∧
      v'.animation = v.animation.map Animation.stopES ∧
      stop_visualization v' = .ok v' := by
  obtain ⟨cb, anim, fig⟩ := v
  cases anim with
  | none =>
    exact ⟨⟨cb, none, false⟩, rfl, rfl, rfl, rfl⟩
  | some a =>
    refine ⟨⟨cb, some a.stopES, false⟩, ?_, rfl, rfl, ?_⟩ <;>
      simp [stop_visualization, pyAttr, Animation.stopES, Bind.bind, Except.bind,
        pure, Except.pure]

/-- Witness for C7 on a visualizer whose animation timer is running. -/
theorem stop_visualization_idempotent_safe_instance :
    ∃ v', stop_visualization (Viz.mk true (some ⟨⟨true⟩⟩) true) = .ok v' ∧
      v'.figOpen = false ∧
      v'.animation = some ⟨⟨false⟩⟩ ∧
      stop_visualization v' = .ok v' := by
  obtain ⟨v', h1, h2, h3, h4⟩ :=
    stop_visualization_idempotent_safe (Viz.mk true (some ⟨⟨true⟩⟩) true)
  exact ⟨v', h1, h2, h3.trans (by decide), h4⟩

/-- C8: for every exit of the blocking `start_visualization` call —
normal return after the window is closed, or an interrupt/exception
propagating out of `plt.show()` — the repeating redraw timer is stopped
before control leaves the call, via the `finally` clause. -/
theorem start_visualization_timer_stopped_on_exit (v : Viz) (ex : ShowExit) :
    ((start_visualization v ex).1).animation =
      some { event_source := { running := false } } ∧
    ((start_visualization v ex).1).data_callback = true := by
  cases ex <;> exact ⟨rfl, rfl⟩

/-- Witness for C8 on a KeyboardInterrupt exit. -/
theorem start_visualization_timer_stopped_on_exit_instance :
    ((start_visualization Viz.init (.interrupted (.other "KeyboardInterrupt"))).1).animation =
      some { event_source := { running := false } } ∧
    ((start_visualization Viz.init (.interrupted (.other "KeyboardInterrupt"))).1).data_callback = true :=
  start_visualization_timer_stopped_on_exit Viz.init (.interrupted (.other "KeyboardInterrupt"))

/-- C9 counterexample: with the default `window_size = 1000` and a
one-sample window, the tick stores the accessor's own list objects as
series y-data (the `data_length ≤ window_size` branch assigns
`data['Ax']` without slicing), so after the tick the rendering state does
retain references into the accessor's sequences — refuting the claim that
every tick copies by slicing. -/
theorem animate_alias_cex :
    sharesOrigin (tickState 1000 (some (.ok (some cexWindow))) initState) cexWindow = true ∧
    (tickState 1000 (some (.ok (some cexWindow))) initState).line_ax.ydata = cexAx := by
  decide

/-- C9 amended: the tick reads the sample window without ever mutating
it, and copies the values out by slicing only when
`data_length > window_size`; when `data_length ≤ window_size` the
accessor's sequences themselves are installed as the series data
(references are retained, not copied). -/
theorem animate_slice_vs_alias (W : ℕ) (s : VizState)
    (f axl ayl azl gxl gyl gzl : PyList)
    (hW : 0 < W) (hpos : 0 < f.len)
    (ha : axl.len = f.len) (hb : ayl.len = f.len) (hc : azl.len = f.len)
    (hd : gxl.len = f.len) (he : gyl.len = f.len) (hg : gzl.len = f.len) :
    ∃ s' log, animate W (some (.ok (some ⟨some f, some axl, some ayl, some azl,
        some gxl, some gyl, some gzl⟩))) s = .ok (s', log) ∧
      (W < f.len →
        s'.line_ax.ydata.origin = none ∧ s'.line_ay.ydata.origin = none ∧
        s'.line_az.ydata.origin = none ∧ s'.line_gx.ydata.origin = none ∧
        s'.line_gy.ydata.origin = none ∧ s'.line_gz.ydata.origin = none) ∧
      (f.len ≤ W →
        s'.line_ax.ydata = axl ∧ s'.line_ay.ydata = ayl ∧
        s'.line_az.ydata = azl ∧ s'.line_gx.ydata = gxl ∧
        s'.line_gy.ydata = gyl ∧ s'.line_gz.ydata = gzl) := by
  rcases le_or_lt f.len W with hle | hgt
  · obtain ⟨mn, mx, gmn, gmx, hmn, hmx, hgmn, hgmx, heq⟩ :=
      animate_small W s f axl ayl azl gxl gyl gzl hpos hle ha hb hc hd he hg
    exact ⟨_, _, heq, fun h => absurd h (by omega),
      fun _ => ⟨rfl, rfl, rfl, rfl, rfl, rfl⟩⟩
  · obtain ⟨mn, mx, gmn, gmx, hmn, hmx, hgmn, hgmx, heq⟩ :=
      animate_big W s f axl ayl azl gxl gyl gzl hW hgt ha hb hc hd he hg
    exact ⟨_, _, heq, fun _ => ⟨rfl, rfl, rfl, rfl, rfl, rfl⟩,
      fun h => absurd h (by omega)⟩

/-- Witness for amended C9: at W = 2 the three-sample window is stored
as fresh slices; at W = 1000 the one-sample window's own lists are
stored. -/
theorem animate_slice_vs_alias_instance :
    (∃ s' log, animate 2 (some (.ok (some sampleWindow3))) initState = .ok (s', log) ∧
      s'.line_ax.ydata.origin = none ∧ s'.line_gz.ydata.origin = none) ∧
    (∃ s' log, animate 1000 (some (.ok (some cexWindow))) initState = .ok (s', log) ∧
      s'.line_ax.ydata = cexAx ∧ s'.line_gz.ydata = cexGz) := by
  constructor
  · obtain ⟨s', log, heq, hbig, _⟩ :=
      animate_slice_vs_alias 2 initState sf3 sax3 say3 saz3 sgx3 sgy3 sgz3
        (by decide) (by decide) rfl rfl rfl rfl rfl rfl
    obtain ⟨h1, _, _, _, _, h6⟩ := hbig (by decide)
    exact ⟨s', log, heq, h1, h6⟩
  · obtain ⟨s', log, heq, _, hsm⟩ :=
      animate_slice_vs_alias 1000 initState cexFrame cexAx cexAy cexAz cexGx cexGy cexGz
        (by decide) (by decide) rfl rfl rfl rfl rfl rfl
    obtain ⟨h1, _, _, _, _, h6⟩ := hsm (by decide)
    exact ⟨s', log, heq, h1, h6⟩

/-- C10: if the accessor returns a truthy mapping that lacks the
`frame` key, or lacks any of the six channel keys reached before the first
series update, the tick does not take the silent no-op branch: the
resulting `KeyError` is caught by the catch-all handler, an error message
naming the missing key is printed, and the whole rendering state is left
unchanged. -/
theorem animate_missing_key_reported (W : ℕ) (s : VizState) (d : DataDict) :
    (d.frame = none →
      animate W (some (.ok (some d))) s =
        .ok (s, ["Error in animation update: 'frame'"])) ∧
    (∀ fr, d.frame = some fr → fr.len ≠ 0 →
      (d.Ax = none ∨ d.Ay = none ∨ d.Az = none ∨
       d.Gx = none ∨ d.Gy = none ∨ d.Gz = none) →
      ∃ k, k ∈ (["Ax", "Ay", "Az", "Gx", "Gy", "Gz"] : List String) ∧
        animate W (some (.ok (some d))) s =
          .ok (s, ["Error in animation update: " ++
            PyError.message (.keyError k)])) := by
  constructor
  · intro hf
    simp [animate, animateTry, hf, PyError.message]
  · intro fr hf hl hmiss
    rcases hax : d.Ax with _ | axv
    · exact ⟨"Ax", by simp,
        by simp [animate, animateTry, windowChannels, hf, hl, hax, PyError.message]⟩
    rcases hay : d.Ay with _ | ayv
    · exact ⟨"Ay", by simp,
        by simp [animate, animateTry, windowChannels, hf, hl, hax, hay, PyError.message]⟩
    rcases haz : d.Az with _ | azv
    · exact ⟨"Az", by simp,
        by simp [animate, animateTry, windowChannels, hf, hl, hax, hay, haz,
          PyError.message]⟩
    rcases hgx : d.Gx with _ | gxv
    · exact ⟨"Gx", by simp,
        by simp [animate, animateTry, windowChannels, hf, hl, hax, hay, haz, hgx,
          PyError.message]⟩
    rcases hgy : d.Gy with _ | gyv
    · exact ⟨"Gy", by simp,
        by simp [animate, animateTry, windowChannels, hf, hl, hax, hay, haz, hgx, hgy,
          PyError.message]⟩
    rcases hgz : d.Gz with _ | gzv
    · exact ⟨"Gz", by simp,
        by simp [animate, animateTry, windowChannels, hf, hl, hax, hay, haz, hgx, hgy,
          hgz, PyError.message]⟩
    rcases hmiss with h | h | h | h | h | h <;> simp_all

/-- Witness for C10: dropping the `frame` key yields the printed
`KeyError('frame')` message and no state change; dropping only the `Gz`
key likewise ends with the state unchanged and a printed message naming
one of the six channel keys. -/
theorem animate_missing_key_reported_instance :
    (animate 1000 (some (.ok (some { cexWindow with frame := none }))) initState =
      .ok (initState, ["Error in animation update: 'frame'"])) ∧
    (∃ k, k ∈ (["Ax", "Ay", "Az", "Gx", "Gy", "Gz"] : List String) ∧
      animate 1000 (some (.ok (some { cexWindow with Gz := none }))) initState =
        .ok (initState, ["Error in animation update: " ++
          PyError.message (.keyError k)])) :=
  ⟨(animate_missing_key_reported 1000 initState { cexWindow with frame := none }).1 rfl,
   (animate_missing_key_reported 1000 initState { cexWindow with Gz := none }).2
     cexFrame rfl (by decide)
     (Or.inr (Or.inr (Or.inr (Or.inr (Or.inr rfl)))))⟩
